import Mathlib

/-
Verification of the AutoRental Hub vehicle-rental application.

The repository ships the frontend (src/frontend/src/App.js); the backend
(`/app/backend/server.py`, referenced by the repository's test log) is not
included.  Frontend computations (BookingModal pricing, the capacity-limit
table, the Confirm-button guard) are embedded directly from App.js.  The
Booking Engine operations (createBooking, updateStatus, listBookings) are
modelled from the specification, as marked on each definition.

Dates are modelled as integers: calendar dates as days since the Unix epoch
for the Booking Engine, and millisecond timestamps for the BookingModal
(JavaScript `Date` subtraction yields milliseconds).  Decimal amounts are
modelled as rationals.
-/

namespace AutoRental

/-! ## Frontend: BookingModal pricing (App.js lines 304-311, 354-368, 379-385) -/

/-- Milliseconds per day, the divisor `1000 * 60 * 60 * 24` in App.js. -/
def msPerDay : Nat := 1000 * 60 * 60 * 24

/-- App.js line 306: `Math.max(1, Math.ceil((new Date(endDate) - new Date(startDate)) / (1000*60*60*24)))`,
the day count used to compute the booking price.  Ceiling division on
natural-number millisecond timestamps. -/
def modalTotalDays (startMs endMs : Nat) : Nat :=
  max 1 ((endMs - startMs + (msPerDay - 1)) / msPerDay)

/-- App.js lines 304-311: the `totalAmount` state.  Set to `days * vehicle.price_per_day`
when `new Date(endDate) > new Date(startDate)`, and to 0 otherwise. -/
def modalTotalAmount (startMs endMs : Nat) (pricePerDay : ℚ) : ℚ :=
  if startMs < endMs then (modalTotalDays startMs endMs : ℚ) * pricePerDay else 0

/-- App.js line 362: the `Total Days` value rendered in the booking summary,
`Math.max(1, Math.ceil((new Date(endDate) - new Date(startDate)) / (1000*60*60*24)))`.
Embedded separately from `modalTotalDays` because it is a second occurrence
of the expression in the source. -/
def summaryTotalDays (startMs endMs : Nat) : Nat :=
  max 1 ((endMs - startMs + (msPerDay - 1)) / msPerDay)

/-- App.js line 381: the Confirm button's `disabled={totalAmount === 0}` condition. -/
def confirmDisabled (totalAmount : ℚ) : Bool :=
  decide (totalAmount = 0)

/-! ## Frontend: vehicle-form capacity limits (App.js lines 416-424) -/

/-- The vehicle type enumeration; the four options of the vehicle-form select
(App.js lines 478-481). -/
inductive VType
  | car
  | motorcycle
  | truck
  | van
deriving DecidableEq, Repr

/-- The `{ min, max }` record returned by `getCapacityLimits`. -/
structure CapacityLimits where
  min : Nat
  max : Nat
deriving DecidableEq, Repr

/-- App.js lines 416-424: `getCapacityLimits(type)`, the per-type capacity
bounds wired into the capacity input's `min`/`max` attributes. -/
def getCapacityLimits : VType → CapacityLimits
  | .motorcycle => { min := 1, max := 2 }
  | .car => { min := 2, max := 8 }
  | .truck => { min := 2, max := 6 }
  | .van => { min := 7, max := 15 }

/-! ## Booking Engine data model -/

/-- Caller roles. -/
inductive Role
  | customer
  | admin
deriving DecidableEq, Repr

/-- Booking lifecycle states (the five options of the admin status select,
App.js lines 866-870). -/
inductive BookingStatus
  | pending
  | confirmed
  | active
  | completed
  | cancelled
deriving DecidableEq, Repr

/-- Payment states (the four options of the admin payment select,
App.js lines 877-880). -/
inductive PaymentStatus
  | pending
  | paid
  | failed
  | refunded
deriving DecidableEq, Repr

/-- The error taxonomy of the specification (spec section 7). -/
inductive RentalError
  | invalidRange
  | dateConflict
  | notFound
  | forbidden
  | validationError
deriving DecidableEq, Repr

/-- A vehicle record. -/
structure Vehicle where
  id : Nat
  vtype : VType
  name : String
  brand : String
  model : String
  year : Nat
  capacity : Nat
  price_per_day : ℚ
  available : Bool
  image_url : Option String
  description : String
deriving DecidableEq, Repr

/-- A user record, referenced by the Booking Engine for identity and role. -/
structure User where
  id : Nat
  role : Role
  name : String
  email : String
deriving DecidableEq, Repr

/-- A booking record.  `start_date` and `end_date` are calendar dates as days
since the Unix epoch; the range is half-open `[start_date, end_date)`. -/
structure Booking where
  id : Nat
  vehicle_id : Nat
  user_id : Nat
  start_date : Nat
  end_date : Nat
  total_days : Nat
  total_amount : ℚ
  status : BookingStatus
  payment_status : PaymentStatus
deriving DecidableEq, Repr

/-- The persisted state the Booking Engine operates on. -/
structure EngineState where
  vehicles : List Vehicle
  users : List User
  bookings : List Booking
  nextId : Nat
deriving DecidableEq, Repr

def findVehicle (s : EngineState) (vid : Nat) : Option Vehicle :=
  s.vehicles.find? (fun v => v.id == vid)

def findUser (s : EngineState) (uid : Nat) : Option User :=
  s.users.find? (fun u => u.id == uid)

def findBooking (s : EngineState) (bid : Nat) : Option Booking :=
  s.bookings.find? (fun b => b.id == bid)

/-- A booking occupies the vehicle's calendar iff its status is `confirmed`
or `active` (spec glossary: "Active booking"). -/
def blocksCalendar (st : BookingStatus) : Bool :=
  st == .confirmed || st == .active

/-! ## Booking Engine operations (modelled from the spec) -/

/-- Modelled from the spec: the conflict check of `createBooking`
(spec section 4.1) over the bookings persisted for a vehicle; the backend
`server.py` is not in the repository.  A request `[startD, endD)` conflicts
iff some booking of the same vehicle whose status is in {confirmed, active}
satisfies the half-open overlap test `a1 < b2 and a2 < b1`. -/
def hasConflict (s : EngineState) (vid startD endD : Nat) : Bool :=
  s.bookings.any (fun b =>
    b.vehicle_id == vid && blocksCalendar b.status &&
      decide (startD < b.end_date) && decide (b.start_date < endD))

/-- Modelled from the spec: `total_days = max(1, ceil((endDate - startDate) in days))`
(spec section 4.1) for calendar dates counted in whole days. -/
def bookingTotalDays (startD endD : Nat) : Nat :=
  max 1 (endD - startD)

/-- Modelled from the spec: `createBooking(vehicleId, requesterId, startDate, endDate)`
(spec section 4.1); the backend `server.py` is not in the repository.
Looks up the vehicle (`NotFound` if absent), validates `endDate` strictly
after `startDate` (`InvalidRange` otherwise), rejects on calendar conflict
(`DateConflict`), prices the booking, and persists a new record with
status `pending` and payment_status `pending`. -/
def createBooking (s : EngineState) (vehicleId requesterId startD endD : Nat) :
    Except RentalError (EngineState × Booking) :=
  match findVehicle s vehicleId with
  | none => .error .notFound
  | some v =>
    if startD < endD then
      if hasConflict s vehicleId startD endD then
        .error .dateConflict
      else
        let days := bookingTotalDays startD endD
        let booking : Booking :=
          { id := s.nextId
            vehicle_id := vehicleId
            user_id := requesterId
            start_date := startD
            end_date := endD
            total_days := days
            total_amount := (days : ℚ) * v.price_per_day
            status := .pending
            payment_status := .pending }
        .ok ({ s with bookings := s.bookings ++ [booking], nextId := s.nextId + 1 }, booking)
    else
      .error .invalidRange

/-- Modelled from the spec: the field update applied by `updateStatus`
(spec section 4.1); unsupplied fields are left unchanged. -/
def applyStatusUpdate (newStatus : Option BookingStatus)
    (newPaymentStatus : Option PaymentStatus) (b : Booking) : Booking :=
  { b with
    status := newStatus.getD b.status
    payment_status := newPaymentStatus.getD b.payment_status }

/-- Modelled from the spec: `updateStatus(bookingId, actorRole, newStatus?, newPaymentStatus?)`
(spec section 4.1); the backend `server.py` is not in the repository.
Only an admin may invoke (`Forbidden` otherwise); the booking must exist
(`NotFound`); no transition table restricts the change; the updated record
is persisted and returned. -/
def updateStatus (s : EngineState) (bookingId : Nat) (actorRole : Role)
    (newStatus : Option BookingStatus) (newPaymentStatus : Option PaymentStatus) :
    Except RentalError (EngineState × Booking) :=
  if actorRole == .admin then
    match findBooking s bookingId with
    | none => .error .notFound
    | some b =>
      .ok
        ({ s with
            bookings := s.bookings.map (fun c =>
              if c.id == bookingId then applyStatusUpdate newStatus newPaymentStatus c else c) },
          applyStatusUpdate newStatus newPaymentStatus b)
  else
    .error .forbidden

/-- An admin booking row joined with vehicle name/type and requester
name/email (spec section 4.1, admin branch of `listBookings`). -/
structure EnrichedBooking where
  booking : Booking
  vehicle_name : Option String
  vehicle_type : Option VType
  user_name : Option String
  user_email : Option String
deriving DecidableEq, Repr

/-- Modelled from the spec: the read-side join enriching a booking with
vehicle and requester details (spec section 4.1). -/
def enrichBooking (s : EngineState) (b : Booking) : EnrichedBooking :=
  { booking := b
    vehicle_name := (findVehicle s b.vehicle_id).map (fun v => v.name)
    vehicle_type := (findVehicle s b.vehicle_id).map (fun v => v.vtype)
    user_name := (findUser s b.user_id).map (fun u => u.name)
    user_email := (findUser s b.user_id).map (fun u => u.email) }

/-- Modelled from the spec: the customer branch of `listBookings` — only
bookings whose user reference matches the requester (spec section 4.1). -/
def listOwnBookings (s : EngineState) (requesterId : Nat) : List Booking :=
  s.bookings.filter (fun b => b.user_id == requesterId)

/-- Modelled from the spec: the admin branch of `listBookings` — all
bookings, enriched (spec section 4.1). -/
def listAllBookings (s : EngineState) : List EnrichedBooking :=
  s.bookings.map (enrichBooking s)

/-- The two shapes `listBookings` can return, by role. -/
inductive BookingsView
  | own (items : List Booking)
  | all (items : List EnrichedBooking)
deriving DecidableEq, Repr

/-- Modelled from the spec: `listBookings(requesterId, role)` (spec
section 4.1), dispatching on the caller's role as the frontend does when it
picks the `/bookings` versus `/bookings/all` endpoint (App.js lines 603-606). -/
def listBookings (s : EngineState) (requesterId : Nat) : Role → BookingsView
  | .customer => .own (listOwnBookings s requesterId)
  | .admin => .all (listAllBookings s)

/-! ## Operation sequences and the calendar-consistency invariant -/

/-- A state-mutating Booking Engine call: the two operations of claim C2. -/
inductive Op
  | create (vehicleId requesterId startD endD : Nat)
  | update (bookingId : Nat) (actorRole : Role)
      (newStatus : Option BookingStatus) (newPaymentStatus : Option PaymentStatus)
deriving DecidableEq, Repr

/-- Apply one operation; a failed operation leaves the state unchanged. -/
def applyOp (s : EngineState) : Op → EngineState
  | .create v u a b =>
    match createBooking s v u a b with
    | .ok r => r.1
    | .error _ => s
  | .update bid r ns nps =>
    match updateStatus s bid r ns nps with
    | .ok r2 => r2.1
    | .error _ => s

/-- Run a sequence of operations from a state. -/
def runScript (s : EngineState) : List Op → EngineState
  | [] => s
  | op :: rest => runScript (applyOp s op) rest

/-- One pair of bookings is admissible unless both block the calendar of the
same vehicle with overlapping half-open date ranges. -/
def pairOk (b1 b2 : Booking) : Bool :=
  !(b1.vehicle_id == b2.vehicle_id && blocksCalendar b1.status && blocksCalendar b2.status &&
    decide (b1.start_date < b2.end_date) && decide (b2.start_date < b1.end_date))

/-- No two distinct list entries form an inadmissible pair. -/
def noOverlapList : List Booking → Bool
  | [] => true
  | b :: rest => rest.all (pairOk b) && noOverlapList rest

/-- The invariant of claim C2: no vehicle has two calendar-blocking bookings
with overlapping date ranges. -/
def calendarConsistent (s : EngineState) : Bool :=
  noOverlapList s.bookings

/-- A status change is blocking-safe when it does not move a booking into
{confirmed, active} from outside that set: either the new status does not
block the calendar, or every stored booking with the target id already
blocks it. -/
def statusChangeSafe (s : EngineState) (bid : Nat) : Option BookingStatus → Bool
  | none => true
  | some st =>
    !blocksCalendar st || (s.bookings.filter (fun b => b.id == bid)).all
      (fun b => blocksCalendar b.status)

/-- An operation is blocking-safe in a state: creations always are (new
bookings start `pending`); updates must be blocking-safe status changes. -/
def opSafe (s : EngineState) : Op → Bool
  | .create _ _ _ _ => true
  | .update bid _ ns _ => statusChangeSafe s bid ns

/-- Every operation of the script is blocking-safe in the state at which it
is applied. -/
def scriptSafe (s : EngineState) : List Op → Bool
  | [] => true
  | op :: rest => opSafe s op && scriptSafe (applyOp s op) rest

/-! ## Concrete dates and example states -/

/-- Days since the Unix epoch of 2024-01-d (2024-01-01 is day 19723). -/
def jan2024 (d : Nat) : Nat := 19722 + d

/-- Unix-epoch milliseconds of 2024-03-d at midnight UTC (2024-03-01 is
epoch day 19783, hence 1709251200000 ms). -/
def mar2024ms (d : Nat) : Nat := (19782 + d) * msPerDay

/-- A concrete vehicle with `price_per_day = 50`. -/
def exVehicle : Vehicle :=
  { id := 1
    vtype := .car
    name := "Sedan"
    brand := "Toyota"
    model := "Corolla"
    year := 2022
    capacity := 5
    price_per_day := 50
    available := true
    image_url := none
    description := "A compact sedan" }

/-- A concrete customer. -/
def exCustomer : User :=
  { id := 2, role := .customer, name := "Alice", email := "alice@example.com" }

/-- An existing confirmed booking of `exVehicle` over [2024-01-10, 2024-01-15). -/
def exConfirmedBooking : Booking :=
  { id := 0
    vehicle_id := 1
    user_id := 2
    start_date := jan2024 10
    end_date := jan2024 15
    total_days := 5
    total_amount := 250
    status := .confirmed
    payment_status := .pending }

/-- A state holding `exVehicle`, `exCustomer` and `exConfirmedBooking`. -/
def exState : EngineState :=
  { vehicles := [exVehicle], users := [exCustomer], bookings := [exConfirmedBooking], nextId := 1 }

/-- An initial state with one vehicle, one customer and no bookings. -/
def initState : EngineState :=
  { vehicles := [exVehicle], users := [exCustomer], bookings := [], nextId := 0 }

/-- A script that creates two overlapping bookings (both start out `pending`,
so the conflict check does not fire) and then confirms both. -/
def overlapScript : List Op :=
  [ .create 1 2 (jan2024 10) (jan2024 15)
  , .create 1 2 (jan2024 12) (jan2024 14)
  , .update 0 .admin (some .confirmed) none
  , .update 1 .admin (some .confirmed) none ]

/-- A blocking-safe script: one creation followed by a payment-only update. -/
def safeScript : List Op :=
  [ .create 1 2 (jan2024 10) (jan2024 15)
  , .update 0 .admin none (some .paid) ]

/-- The booking fields that `updateStatus` must not touch, collected in one
tuple: id, vehicle reference, user reference, dates, total_days, total_amount. -/
def bookingFrame (b : Booking) : Nat × Nat × Nat × Nat × Nat × Nat × ℚ :=
  (b.id, b.vehicle_id, b.user_id, b.start_date, b.end_date, b.total_days, b.total_amount)

/-! ## Helper lemmas -/

/-- Natural ceiling division `(a + (b - 1)) / b` computes the ceiling of the
exact rational quotient `a / b`. -/
theorem ceilDiv_eq_natCeil (a b : Nat) (hb : 0 < b) :
    (a + (b - 1)) / b = ⌈(a : ℚ) / (b : ℚ)⌉₊ := by
  have hbq : (0 : ℚ) < (b : ℚ) := by exact_mod_cast hb
  apply le_antisymm
  · rw [Nat.div_le_iff_le_mul_add_pred hb]
    have h1 : (a : ℚ) ≤ (⌈(a : ℚ) / (b : ℚ)⌉₊ : ℚ) * (b : ℚ) := by
      have hc := Nat.le_ceil ((a : ℚ) / (b : ℚ))
      calc (a : ℚ) = (a : ℚ) / (b : ℚ) * (b : ℚ) := by field_simp
        _ ≤ (⌈(a : ℚ) / (b : ℚ)⌉₊ : ℚ) * (b : ℚ) :=
            mul_le_mul_of_nonneg_right hc (le_of_lt hbq)
    have h2 : a ≤ ⌈(a : ℚ) / (b : ℚ)⌉₊ * b := by exact_mod_cast h1
    rw [Nat.mul_comm] at h2
    omega
  · rw [Nat.ceil_le, div_le_iff₀ hbq]
    have key : a ≤ (a + (b - 1)) / b * b := by
      have hd := Nat.div_add_mod (a + (b - 1)) b
      have hm : (a + (b - 1)) % b < b := Nat.mod_lt _ hb
      rw [Nat.mul_comm]
      omega
    exact_mod_cast key

/-- What a successful `createBooking` produces: vehicles and users untouched,
the new booking appended, and the new booking's initial fields. -/
theorem createBooking_ok_spec {s : EngineState} {vid rid a b : Nat}
    {s' : EngineState} {nb : Booking}
    (h : createBooking s vid rid a b = .ok (s', nb)) :
    s'.vehicles = s.vehicles ∧ s'.users = s.users ∧
      s'.bookings = s.bookings ++ [nb] ∧ s'.nextId = s.nextId + 1 ∧
      nb.status = .pending ∧ nb.payment_status = .pending ∧
      nb.vehicle_id = vid ∧ nb.user_id = rid ∧
      nb.start_date = a ∧ nb.end_date = b := by
  unfold createBooking at h
  split at h
  · cases h
  · split at h
    · split at h
      · cases h
      · simp only [Except.ok.injEq, Prod.mk.injEq] at h
        obtain ⟨hs, hnb⟩ := h
        subst hs
        subst hnb
        exact ⟨rfl, rfl, rfl, rfl, rfl, rfl, rfl, rfl, rfl, rfl⟩
    · cases h

/-- What a successful `updateStatus` produces: the caller was an admin,
vehicles and users untouched, every stored booking with the target id
updated, and the returned record equal to the updated stored record. -/
theorem updateStatus_ok_spec {s : EngineState} {bid : Nat} {role : Role}
    {ns : Option BookingStatus} {nps : Option PaymentStatus}
    {s' : EngineState} {b' : Booking}
    (h : updateStatus s bid role ns nps = .ok (s', b')) :
    role = .admin ∧ s'.vehicles = s.vehicles ∧ s'.users = s.users ∧
      s'.bookings = s.bookings.map (fun c =>
        if c.id == bid then applyStatusUpdate ns nps c else c) ∧
      ∃ b, findBooking s bid = some b ∧ b' = applyStatusUpdate ns nps b := by
  unfold updateStatus at h
  split at h
  · rename_i hrole
    have hr : role = Role.admin := by
      cases role
      · exact absurd hrole (by decide)
      · rfl
    split at h
    · cases h
    · rename_i b heq
      simp only [Except.ok.injEq, Prod.mk.injEq] at h
      obtain ⟨hs, hb'⟩ := h
      subst hs
      subst hb'
      exact ⟨hr, rfl, rfl, rfl, b, heq, rfl⟩
  · cases h

/-- Unfolding `pairOk` into its propositional content. -/
theorem pairOk_iff (b1 b2 : Booking) :
    pairOk b1 b2 = true ↔
      ¬(b1.vehicle_id = b2.vehicle_id ∧ blocksCalendar b1.status = true ∧
        blocksCalendar b2.status = true ∧ b1.start_date < b2.end_date ∧
        b2.start_date < b1.end_date) := by
  unfold pairOk
  rw [Bool.not_eq_true', ← Bool.not_eq_true]
  constructor
  · intro hn hc
    exact hn (by simp [hc.1, hc.2.1, hc.2.2.1, hc.2.2.2.1, hc.2.2.2.2])
  · intro hn hc
    simp only [Bool.and_eq_true, beq_iff_eq, decide_eq_true_eq] at hc
    exact hn ⟨hc.1.1.1.1, hc.1.1.1.2, hc.1.1.2, hc.1.2, hc.2⟩

/-- Appending a booking that does not block the calendar preserves
pairwise admissibility. -/
theorem noOverlapList_append_nonblocking (l : List Booking) (nb : Booking)
    (hnb : blocksCalendar nb.status = false) (h : noOverlapList l = true) :
    noOverlapList (l ++ [nb]) = true := by
  induction l with
  | nil => simp [noOverlapList, pairOk, hnb]
  | cons b rest ih =>
    simp only [noOverlapList, Bool.and_eq_true, List.all_eq_true] at h
    simp only [List.cons_append, noOverlapList, Bool.and_eq_true, List.all_eq_true]
    refine ⟨?_, ih h.2⟩
    intro c hc
    rcases List.mem_append.mp hc with hcl | hcr
    · exact h.1 c hcl
    · have : c = nb := by simpa using hcr
      subst this
      simp [pairOk, hnb]

/-- Mapping a function that keeps each booking's vehicle and dates, and never
turns a non-blocking booking into a blocking one, preserves pairwise
admissibility. -/
theorem noOverlapList_map (l : List Booking) (f : Booking → Booking)
    (hf : ∀ b ∈ l, (f b).vehicle_id = b.vehicle_id ∧ (f b).start_date = b.start_date ∧
      (f b).end_date = b.end_date ∧
      (blocksCalendar (f b).status = true → blocksCalendar b.status = true))
    (h : noOverlapList l = true) : noOverlapList (l.map f) = true := by
  induction l with
  | nil => simp [noOverlapList]
  | cons b rest ih =>
    simp only [noOverlapList, Bool.and_eq_true, List.all_eq_true] at h
    simp only [List.map_cons, noOverlapList, Bool.and_eq_true, List.all_eq_true]
    constructor
    · intro c hc
      obtain ⟨d, hd, hdc⟩ := List.mem_map.mp hc
      subst hdc
      have hpair := h.1 d hd
      have hfb := hf b (List.mem_cons_self _ _)
      have hfd := hf d (List.mem_cons_of_mem _ hd)
      rw [pairOk_iff] at hpair ⊢
      intro hcontra
      obtain ⟨e1, e2, e3, e4, e5⟩ := hcontra
      exact hpair ⟨by rw [← hfb.1, ← hfd.1]; exact e1,
        hfb.2.2.2 e2, hfd.2.2.2 e3,
        by rw [← hfb.2.1, ← hfd.2.2.1]; exact e4,
        by rw [← hfd.2.1, ← hfb.2.2.1]; exact e5⟩
    · exact ih (fun c hc => hf c (List.mem_cons_of_mem _ hc)) h.2

/-- Applying a create operation preserves calendar consistency: the new
booking starts `pending`, which does not block the calendar. -/
theorem applyOp_create_preserves (s : EngineState) (vid rid a b : Nat)
    (h : calendarConsistent s = true) :
    calendarConsistent (applyOp s (.create vid rid a b)) = true := by
  show calendarConsistent
    (match createBooking s vid rid a b with
      | .ok r => r.1
      | .error _ => s) = true
  cases hr : createBooking s vid rid a b with
  | error e => exact h
  | ok r =>
    have hok : createBooking s vid rid a b = .ok (r.1, r.2) := by rw [hr]
    obtain ⟨-, -, hbk, -, hst, -⟩ := createBooking_ok_spec hok
    unfold calendarConsistent
    rw [hbk]
    exact noOverlapList_append_nonblocking _ _ (by rw [hst]; rfl) h

/-- Applying a blocking-safe update operation preserves calendar consistency. -/
theorem applyOp_update_preserves (s : EngineState) (bid : Nat) (role : Role)
    (ns : Option BookingStatus) (nps : Option PaymentStatus)
    (hsafe : statusChangeSafe s bid ns = true) (h : calendarConsistent s = true) :
    calendarConsistent (applyOp s (.update bid role ns nps)) = true := by
  show calendarConsistent
    (match updateStatus s bid role ns nps with
      | .ok r2 => r2.1
      | .error _ => s) = true
  cases hr : updateStatus s bid role ns nps with
  | error e => exact h
  | ok r =>
    have hok : updateStatus s bid role ns nps = .ok (r.1, r.2) := by rw [hr]
    obtain ⟨-, -, -, hbk, -⟩ := updateStatus_ok_spec hok
    unfold calendarConsistent
    rw [hbk]
    apply noOverlapList_map _ _ _ h
    intro c hc
    by_cases hid : (c.id == bid) = true
    · rw [if_pos hid]
      refine ⟨rfl, rfl, rfl, ?_⟩
      cases ns with
      | none => exact fun hx => hx
      | some st =>
        intro hblocks
        simp only [applyStatusUpdate, Option.getD_some] at hblocks
        simp only [statusChangeSafe, Bool.or_eq_true, Bool.not_eq_true',
          List.all_eq_true] at hsafe
        rcases hsafe with hfalse | hall
        · rw [hfalse] at hblocks; cases hblocks
        · exact hall c (List.mem_filter.mpr ⟨hc, hid⟩)
    · rw [if_neg hid]
      exact ⟨rfl, rfl, rfl, fun hx => hx⟩

/-! ## Claim theorems -/

/-- C1: for endDate strictly after startDate and positive price_per_day, the
BookingModal computes total_days = max(1, ceil((endDate - startDate) in
days)) — the ceiling of the exact rational quotient of the millisecond
difference by one day — and total_amount = total_days * price_per_day; with
price 50, start 2024-03-01 and end 2024-03-04 this gives total_days = 3 and
total_amount = 150. -/
theorem c1_modal_pricing :
    (∀ startMs endMs : Nat, startMs < endMs →
      modalTotalDays startMs endMs =
        max 1 ⌈((endMs : ℚ) - (startMs : ℚ)) / (msPerDay : ℚ)⌉₊) ∧
    (∀ (startMs endMs : Nat) (price : ℚ), startMs < endMs → 0 < price →
      modalTotalAmount startMs endMs price = (modalTotalDays startMs endMs : ℚ) * price) ∧
    modalTotalDays (mar2024ms 1) (mar2024ms 4) = 3 ∧
    modalTotalAmount (mar2024ms 1) (mar2024ms 4) 50 = 150 := by
  refine ⟨?_, ?_, by decide, ?_⟩
  · intro s e h
    unfold modalTotalDays
    have hcast : ((e - s : Nat) : ℚ) = (e : ℚ) - (s : ℚ) := Nat.cast_sub (le_of_lt h)
    rw [← hcast]
    congr 1
    exact ceilDiv_eq_natCeil (e - s) msPerDay (by decide)
  · intro s e p h hp
    unfold modalTotalAmount
    rw [if_pos h]
  · norm_num [modalTotalAmount, modalTotalDays, mar2024ms, msPerDay]

/-- Witness for C1 at price 50, start 2024-03-01, end 2024-03-04 (Unix-epoch
milliseconds). -/
theorem c1_modal_pricing_witness :
    mar2024ms 1 < mar2024ms 4 ∧ (0 : ℚ) < 50 ∧
    modalTotalDays (mar2024ms 1) (mar2024ms 4) =
      max 1 ⌈((mar2024ms 4 : ℚ) - (mar2024ms 1 : ℚ)) / (msPerDay : ℚ)⌉₊ ∧
    modalTotalAmount (mar2024ms 1) (mar2024ms 4) 50 =
      (modalTotalDays (mar2024ms 1) (mar2024ms 4) : ℚ) * 50 :=
  ⟨by decide, by norm_num,
    c1_modal_pricing.1 (mar2024ms 1) (mar2024ms 4) (by decide),
    c1_modal_pricing.2.1 (mar2024ms 1) (mar2024ms 4) 50 (by decide) (by norm_num)⟩

/-- C3: with the vehicle present and a valid range, createBooking fails with
DateConflict exactly when some stored booking of the same vehicle in
{confirmed, active} satisfies the half-open overlap test a1 < b2 and
a2 < b1; concretely, against a confirmed [2024-01-10, 2024-01-15) a request
[2024-01-12, 2024-01-14) fails with DateConflict and a back-to-back request
[2024-01-15, 2024-01-18) succeeds. -/
theorem c3_conflict_semantics :
    (∀ (s : EngineState) (vid rid a1 b1 : Nat) (v : Vehicle),
      findVehicle s vid = some v → a1 < b1 →
      (createBooking s vid rid a1 b1 = .error .dateConflict ↔
        ∃ ex ∈ s.bookings, ex.vehicle_id = vid ∧
          (ex.status = .confirmed ∨ ex.status = .active) ∧
          a1 < ex.end_date ∧ ex.start_date < b1)) ∧
    createBooking exState 1 2 (jan2024 12) (jan2024 14) = .error .dateConflict ∧
    (createBooking exState 1 2 (jan2024 15) (jan2024 18)).isOk = true := by
  refine ⟨?_, rfl, by decide⟩
  intro s vid rid a1 b1 v hv hab
  have hexpand : hasConflict s vid a1 b1 = true ↔
      ∃ ex ∈ s.bookings, ex.vehicle_id = vid ∧
        (ex.status = .confirmed ∨ ex.status = .active) ∧
        a1 < ex.end_date ∧ ex.start_date < b1 := by
    simp [hasConflict, blocksCalendar, List.any_eq_true, Bool.and_eq_true,
      beq_iff_eq, decide_eq_true_eq, Bool.or_eq_true, and_assoc]
  by_cases hc : hasConflict s vid a1 b1 = true
  · have hcb : createBooking s vid rid a1 b1 = .error .dateConflict := by
      simp [createBooking, hv, hab, hc]
    rw [hcb]
    exact iff_of_true rfl (hexpand.mp hc)
  · have hne : ¬(createBooking s vid rid a1 b1 = .error .dateConflict) := by
      simp [createBooking, hv, hab, hc]
    exact iff_of_false hne (fun hex => hc (hexpand.mpr hex))

/-- Witness for C3: the overlap criterion instantiated at the concrete
conflicting request of the claim. -/
theorem c3_conflict_semantics_witness :
    findVehicle exState 1 = some exVehicle ∧ jan2024 12 < jan2024 14 ∧
    (createBooking exState 1 2 (jan2024 12) (jan2024 14) = .error .dateConflict ↔
      ∃ ex ∈ exState.bookings, ex.vehicle_id = 1 ∧
        (ex.status = .confirmed ∨ ex.status = .active) ∧
        jan2024 12 < ex.end_date ∧ ex.start_date < jan2024 14) :=
  ⟨rfl, by decide,
    c3_conflict_semantics.1 exState 1 2 (jan2024 12) (jan2024 14) exVehicle rfl (by decide)⟩

/-- C4: with the vehicle present, createBooking fails with InvalidRange for
every range with end not strictly after start (including end = start); the
booking form computes totalAmount = 0 for such a range, and the Confirm
button is disabled exactly when totalAmount is 0. -/
theorem c4_invalid_range :
    (∀ (s : EngineState) (vid rid a b : Nat) (v : Vehicle),
      findVehicle s vid = some v → b ≤ a →
      createBooking s vid rid a b = .error .invalidRange) ∧
    (∀ (startMs endMs : Nat) (price : ℚ), endMs ≤ startMs →
      modalTotalAmount startMs endMs price = 0) ∧
    (∀ amount : ℚ, confirmDisabled amount = true ↔ amount = 0) := by
  refine ⟨?_, ?_, ?_⟩
  · intro s vid rid a b v hv hba
    simp [createBooking, hv, Nat.not_lt.mpr hba]
  · intro s e p h
    unfold modalTotalAmount
    rw [if_neg (Nat.not_lt.mpr h)]
  · intro amount
    simp [confirmDisabled]

/-- Witness for C4 at end_date = start_date = 2024-01-12 and a reversed
modal range. -/
theorem c4_invalid_range_witness :
    createBooking exState 1 2 (jan2024 12) (jan2024 12) = .error .invalidRange ∧
    modalTotalAmount (mar2024ms 4) (mar2024ms 1) 50 = 0 ∧
    (confirmDisabled 0 = true ↔ (0 : ℚ) = 0) :=
  ⟨c4_invalid_range.1 exState 1 2 (jan2024 12) (jan2024 12) exVehicle rfl (le_refl _),
    c4_invalid_range.2.1 (mar2024ms 4) (mar2024ms 1) 50 (by decide),
    c4_invalid_range.2.2 0⟩

/-- C8: the vehicle-creation form's type-specific capacity bounds are
car 2-8, motorcycle 1-2, truck 2-6 and van 7-15. -/
theorem c8_capacity_limits :
    getCapacityLimits .car = { min := 2, max := 8 } ∧
    getCapacityLimits .motorcycle = { min := 1, max := 2 } ∧
    getCapacityLimits .truck = { min := 2, max := 6 } ∧
    getCapacityLimits .van = { min := 7, max := 15 } :=
  ⟨rfl, rfl, rfl, rfl⟩

/-- C10: the Total Days value the booking summary renders (App.js line 362)
is the same function of the inputs as the day count used to compute
totalAmount (line 306), and whenever the summary is rendered (totalAmount
strictly positive) the displayed Total Amount equals the displayed Total
Days times the displayed Daily Rate. -/
theorem c10_summary_consistent :
    (∀ startMs endMs : Nat,
      summaryTotalDays startMs endMs = modalTotalDays startMs endMs) ∧
    (∀ (startMs endMs : Nat) (price : ℚ), 0 < modalTotalAmount startMs endMs price →
      modalTotalAmount startMs endMs price = (summaryTotalDays startMs endMs : ℚ) * price) := by
  refine ⟨fun _ _ => rfl, ?_⟩
  intro s e p hpos
  by_cases h : s < e
  · unfold modalTotalAmount
    rw [if_pos h]
    rfl
  · exfalso
    unfold modalTotalAmount at hpos
    rw [if_neg h] at hpos
    exact lt_irrefl 0 hpos

/-- Witness for C10 at the concrete March 2024 range and daily rate 50. -/
theorem c10_summary_consistent_witness :
    summaryTotalDays (mar2024ms 1) (mar2024ms 4) = modalTotalDays (mar2024ms 1) (mar2024ms 4) ∧
    (0 : ℚ) < modalTotalAmount (mar2024ms 1) (mar2024ms 4) 50 ∧
    modalTotalAmount (mar2024ms 1) (mar2024ms 4) 50 =
      (summaryTotalDays (mar2024ms 1) (mar2024ms 4) : ℚ) * 50 :=
  ⟨c10_summary_consistent.1 (mar2024ms 1) (mar2024ms 4),
    by norm_num [modalTotalAmount, modalTotalDays, mar2024ms, msPerDay],
    c10_summary_consistent.2 (mar2024ms 1) (mar2024ms 4) 50
      (by norm_num [modalTotalAmount, modalTotalDays, mar2024ms, msPerDay])⟩

/-- C5: updateStatus fails with Forbidden for every caller whose role is
not admin, and for an admin caller on an existing booking it succeeds for
every pair of current and new status values — no transition table restricts
which status may follow which. -/
theorem c5_update_status_auth :
    (∀ (s : EngineState) (bid : Nat) (role : Role) (ns : Option BookingStatus)
      (nps : Option PaymentStatus), role ≠ .admin →
      updateStatus s bid role ns nps = .error .forbidden) ∧
    (∀ (s : EngineState) (bid : Nat) (b : Booking) (ns : BookingStatus)
      (nps : PaymentStatus), findBooking s bid = some b →
      (updateStatus s bid .admin (some ns) (some nps)).isOk = true) := by
  constructor
  · intro s bid role ns nps hrole
    cases role
    · rfl
    · exact absurd rfl hrole
  · intro s bid b ns nps hb
    simp [updateStatus, hb, Except.isOk, Except.toBool]

/-- Witness for C5: a customer is refused; an admin succeeds on the
confirmed example booking with an arbitrary status pair. -/
theorem c5_update_status_auth_witness :
    updateStatus exState 0 .customer none none = .error .forbidden ∧
    (updateStatus exState 0 .admin (some .cancelled) (some .refunded)).isOk = true :=
  ⟨c5_update_status_auth.1 exState 0 .customer none none (by decide),
    c5_update_status_auth.2 exState 0 exConfirmedBooking .cancelled .refunded rfl⟩

/-- C6: a successful updateStatus leaves an unsupplied status or
payment_status unchanged, and changes none of the booking's other fields
(vehicle reference, user reference, dates, total_days, total_amount) on the
returned record or on any stored booking; vehicles and users are untouched. -/
theorem c6_update_status_frame :
    ∀ (s : EngineState) (bid : Nat) (role : Role) (ns : Option BookingStatus)
      (nps : Option PaymentStatus) (s' : EngineState) (b' b : Booking),
      updateStatus s bid role ns nps = .ok (s', b') →
      findBooking s bid = some b →
      b'.vehicle_id = b.vehicle_id ∧ b'.user_id = b.user_id ∧
      b'.start_date = b.start_date ∧ b'.end_date = b.end_date ∧
      b'.total_days = b.total_days ∧ b'.total_amount = b.total_amount ∧
      (ns = none → b'.status = b.status) ∧
      (nps = none → b'.payment_status = b.payment_status) ∧
      s'.vehicles = s.vehicles ∧ s'.users = s.users ∧
      s'.bookings.map bookingFrame = s.bookings.map bookingFrame := by
  intro s bid role ns nps s' b' b h hfind
  obtain ⟨-, hveh, hus, hbk, b2, hfind2, hb'⟩ := updateStatus_ok_spec h
  rw [hfind] at hfind2
  injection hfind2 with hbb
  subst hbb
  subst hb'
  refine ⟨rfl, rfl, rfl, rfl, rfl, rfl, ?_, ?_, hveh, hus, ?_⟩
  · intro hns
    subst hns
    rfl
  · intro hnps
    subst hnps
    rfl
  · rw [hbk, List.map_map]
    have hcomp : bookingFrame ∘ (fun c => if c.id == bid then applyStatusUpdate ns nps c else c) =
        bookingFrame := by
      funext c
      by_cases hid : (c.id == bid) = true
      · simp only [Function.comp_apply, if_pos hid]
        rfl
      · simp only [Function.comp_apply, if_neg hid]
    rw [hcomp]

/-- The example booking after a payment-only update. -/
def exPaidBooking : Booking :=
  { exConfirmedBooking with payment_status := .paid }

/-- The example state after the payment-only update. -/
def exPaidState : EngineState :=
  { exState with bookings := [exPaidBooking] }

/-- Witness for C6: the payment-only update on the example state leaves the
status and every frame field unchanged. -/
theorem c6_update_status_frame_witness :
    exPaidBooking.vehicle_id = exConfirmedBooking.vehicle_id ∧
    exPaidBooking.user_id = exConfirmedBooking.user_id ∧
    exPaidBooking.start_date = exConfirmedBooking.start_date ∧
    exPaidBooking.end_date = exConfirmedBooking.end_date ∧
    exPaidBooking.total_days = exConfirmedBooking.total_days ∧
    exPaidBooking.total_amount = exConfirmedBooking.total_amount ∧
    ((none : Option BookingStatus) = none → exPaidBooking.status = exConfirmedBooking.status) ∧
    ((some PaymentStatus.paid : Option PaymentStatus) = none →
      exPaidBooking.payment_status = exConfirmedBooking.payment_status) ∧
    exPaidState.vehicles = exState.vehicles ∧ exPaidState.users = exState.users ∧
    exPaidState.bookings.map bookingFrame = exState.bookings.map bookingFrame :=
  c6_update_status_frame exState 0 .admin none (some .paid) exPaidState exPaidBooking
    exConfirmedBooking rfl rfl

/-- C7: the customer branch of listBookings returns only bookings whose
user reference equals the requester's id; the admin branch returns all
bookings, each enriched with vehicle name/type and requester name/email. -/
theorem c7_list_bookings_scoping :
    (∀ (s : EngineState) (rid : Nat) (b : Booking),
      b ∈ listOwnBookings s rid → b.user_id = rid) ∧
    (∀ (s : EngineState) (rid : Nat),
      listBookings s rid .customer = .own (listOwnBookings s rid)) ∧
    (∀ (s : EngineState) (rid : Nat),
      listBookings s rid .admin = .all (listAllBookings s)) ∧
    (∀ s : EngineState, (listAllBookings s).map (fun e => e.booking) = s.bookings) ∧
    (∀ (s : EngineState) (e : EnrichedBooking), e ∈ listAllBookings s →
      e.vehicle_name = (findVehicle s e.booking.vehicle_id).map (fun v => v.name) ∧
      e.vehicle_type = (findVehicle s e.booking.vehicle_id).map (fun v => v.vtype) ∧
      e.user_name = (findUser s e.booking.user_id).map (fun u => u.name) ∧
      e.user_email = (findUser s e.booking.user_id).map (fun u => u.email)) := by
  refine ⟨?_, fun _ _ => rfl, fun _ _ => rfl, ?_, ?_⟩
  · intro s rid b hb
    simp only [listOwnBookings, List.mem_filter, beq_iff_eq] at hb
    exact hb.2
  · intro s
    unfold listAllBookings
    rw [List.map_map]
    have hcomp : (fun e : EnrichedBooking => e.booking) ∘ enrichBooking s = id := by
      funext b
      rfl
    rw [hcomp, List.map_id]
  · intro s e he
    obtain ⟨b, hb, hbe⟩ := List.mem_map.mp he
    subst hbe
    exact ⟨rfl, rfl, rfl, rfl⟩

/-- Witness for C7: the example booking is in its owner's customer listing
and carries the owner's id; an enriched row of the admin listing carries the
joined details. -/
theorem c7_list_bookings_scoping_witness :
    exConfirmedBooking ∈ listOwnBookings exState 2 ∧ exConfirmedBooking.user_id = 2 ∧
    (enrichBooking exState exConfirmedBooking ∈ listAllBookings exState ∧
      (enrichBooking exState exConfirmedBooking).user_email =
        (findUser exState exConfirmedBooking.user_id).map (fun u => u.email)) :=
  ⟨by decide, c7_list_bookings_scoping.1 exState 2 exConfirmedBooking (by decide),
    by decide,
    (c7_list_bookings_scoping.2.2.2.2 exState (enrichBooking exState exConfirmedBooking)
      (by decide)).2.2.2⟩

/-- C9: a successful createBooking only appends the new booking record: the
vehicle list — hence every vehicle's availability flag and all other
vehicle fields — and the user list are unchanged. -/
theorem c9_create_booking_frame :
    ∀ (s : EngineState) (vid rid a b : Nat) (s' : EngineState) (nb : Booking),
      createBooking s vid rid a b = .ok (s', nb) →
      s'.vehicles = s.vehicles ∧ s'.users = s.users ∧
      s'.bookings = s.bookings ++ [nb] := by
  intro s vid rid a b s' nb h
  obtain ⟨h1, h2, h3, -⟩ := createBooking_ok_spec h
  exact ⟨h1, h2, h3⟩

/-- The booking created by the back-to-back request [2024-01-15, 2024-01-18). -/
def exNewBooking : Booking :=
  { id := 1
    vehicle_id := 1
    user_id := 2
    start_date := jan2024 15
    end_date := jan2024 18
    total_days := 3
    total_amount := ((3 : Nat) : ℚ) * 50
    status := .pending
    payment_status := .pending }

/-- The example state after the back-to-back creation. -/
def exStateAfterCreate : EngineState :=
  { exState with bookings := [exConfirmedBooking, exNewBooking], nextId := 2 }

/-- Witness for C9: the concrete back-to-back creation leaves vehicles and
users unchanged and appends exactly the new record. -/
theorem c9_create_booking_frame_witness :
    exStateAfterCreate.vehicles = exState.vehicles ∧
    exStateAfterCreate.users = exState.users ∧
    exStateAfterCreate.bookings = exState.bookings ++ [exNewBooking] :=
  c9_create_booking_frame exState 1 2 (jan2024 15) (jan2024 18) exStateAfterCreate exNewBooking rfl

/-- C2 counterexample: from a consistent initial state, two createBooking
calls with overlapping ranges succeed (both new bookings are pending, so
the conflict check passes) and two unrestricted updateStatus calls then
confirm both; the resulting state has two overlapping confirmed bookings of
the same vehicle, so the invariant does not hold after every operation
sequence. -/
theorem c2_overlap_counterexample :
    calendarConsistent initState = true ∧
    calendarConsistent (runScript initState overlapScript) = false :=
  ⟨by decide, by decide⟩

/-- C2 (amended): after any sequence of createBooking and updateStatus
operations in which no updateStatus moves a booking's status into
{confirmed, active} from outside that set, a calendar-consistent state
stays calendar-consistent: no vehicle holds two bookings in
{confirmed, active} with overlapping [start, end) date ranges. -/
theorem c2_no_overlap_under_safe_updates :
    ∀ (s : EngineState) (script : List Op), calendarConsistent s = true →
      scriptSafe s script = true → calendarConsistent (runScript s script) = true := by
  intro s script
  induction script generalizing s with
  | nil => exact fun h _ => h
  | cons op rest ih =>
    intro h hsafe
    rw [scriptSafe, Bool.and_eq_true] at hsafe
    refine ih (applyOp s op) ?_ hsafe.2
    cases op with
    | create vid rid a b => exact applyOp_create_preserves s vid rid a b h
    | update bid role ns nps => exact applyOp_update_preserves s bid role ns nps hsafe.1 h

/-- Witness for the amended C2: the blocking-safe script (one creation and
one payment-only update) keeps the initial state calendar-consistent. -/
theorem c2_no_overlap_witness :
    calendarConsistent initState = true ∧ scriptSafe initState safeScript = true ∧
    calendarConsistent (runScript initState safeScript) = true :=
  ⟨by decide, by decide,
    c2_no_overlap_under_safe_updates initState safeScript (by decide) (by decide)⟩

end AutoRental
